import Mathlib

/-!
# Verification of the CRE fact-checker agent

A shallow embedding, in Lean 4, of the claim-verification and proof pipeline
of the `agent-verifier` repository: the verdict hasher (agent and CRE-workflow
implementations), the claim extractor (including its regex patterns), the
oracle verifiers, the dedup / rate-limit bookkeeping, and the per-claim step
of the cycle orchestrator.  JavaScript numbers are modelled as `ℚ`
(`Math.round x` becomes `⌊x + 1/2⌋`), machine integers as `Nat`/`Int` with
explicit `% 2 ^ 64` where overflow matters, fallible code as `Except`/`Option`.
-/

namespace AgentVerifier

/-! ## JavaScript numeric helpers -/

/-- JavaScript `Math.round`: round half towards positive infinity. -/
def jsRound (q : ℚ) : ℤ := ⌊q + 1 / 2⌋

/-- 32-byte big-endian encoding of a natural number below `2 ^ 256`
(the `uint256` encoding used by both `ethers.solidityPacked` and viem's
`encodePacked`). -/
def beBytes32 (n : Nat) : List Nat :=
  (List.range 32).map (fun i => n / 256 ^ (31 - i) % 256)

/-- UTF-8 bytes of a string (both libraries encode `string` arguments as
UTF-8 with no length prefix). -/
def utf8Bytes (s : String) : List Nat :=
  s.toUTF8.toList.map (fun b => b.toNat)

/-! ## Keccak-256

A complete executable Keccak-256 (the pre-NIST padding used by Ethereum:
domain byte `0x01`, rate 1088 bits).  The state is a flat list of 25 lanes,
lane `(x, y)` at index `x + 5 * y`; each lane is a `Nat` kept below `2 ^ 64`.
-/

namespace Keccak

def rotl64 (x n : Nat) : Nat :=
  ((x <<< n) ||| (x >>> (64 - n))) % 2 ^ 64

/-- Rho-step rotation offsets, indexed by `x + 5 * y`, generated by the
standard walk `(x, y) ← (y, (2x + 3y) mod 5)` from `(1, 0)`, writing the
triangular numbers `(t+1)(t+2)/2 mod 64`. -/
def rotOff : List Nat :=
  ((List.range 24).foldl
    (fun (p : List Nat × Nat × Nat) t =>
      (p.1.set (p.2.1 + 5 * p.2.2) ((t + 1) * (t + 2) / 2 % 64),
       p.2.2, (2 * p.2.1 + 3 * p.2.2) % 5))
    (List.replicate 25 0, 1, 0)).1

/-- One step of the degree-8 LFSR of FIPS 202 (`x^8 + x^6 + x^5 + x^4 + 1`,
byte form: shift left and conditionally reduce by `0x71`). -/
def lfsrStep (r : Nat) : Nat :=
  ((r <<< 1) ^^^ (r >>> 7) * 0x71) % 256

/-- Generate `n` iota-step round constants from LFSR state `r`: bit
`2 ^ j - 1` of each constant is bit 1 of the LFSR after each of 7 steps. -/
def rcGen : Nat → Nat → List Nat
  | 0, _ => []
  | n + 1, r =>
    let p := (List.range 7).foldl
      (fun (p : Nat × Nat) j =>
        let r2 := lfsrStep p.2
        (if r2 &&& 2 != 0 then p.1 ||| (1 <<< (2 ^ j - 1)) else p.1, r2))
      (0, r)
    p.1 :: rcGen n p.2

/-- The 24 round constants of Keccak-f[1600]. -/
def roundConst : List Nat := rcGen 24 1

def theta (A : List Nat) : List Nat :=
  let C := (List.range 5).map (fun x =>
    A.getD x 0 ^^^ A.getD (x + 5) 0 ^^^ A.getD (x + 10) 0 ^^^
    A.getD (x + 15) 0 ^^^ A.getD (x + 20) 0)
  let D := (List.range 5).map (fun x =>
    C.getD ((x + 4) % 5) 0 ^^^ rotl64 (C.getD ((x + 1) % 5) 0) 1)
  (List.range 25).map (fun i => A.getD i 0 ^^^ D.getD (i % 5) 0)

def rhoPi (A : List Nat) : List Nat :=
  (List.range 25).foldl
    (fun B i =>
      let x := i % 5
      let y := i / 5
      B.set (y + 5 * ((2 * x + 3 * y) % 5)) (rotl64 (A.getD i 0) (rotOff.getD i 0)))
    (List.replicate 25 0)

def chi (B : List Nat) : List Nat :=
  (List.range 25).map (fun i =>
    let x := i % 5
    let y := i / 5
    B.getD i 0 ^^^
      (((2 ^ 64 - 1) ^^^ B.getD ((x + 1) % 5 + 5 * y) 0) &&& B.getD ((x + 2) % 5 + 5 * y) 0))

def keccakRound (A : List Nat) (rc : Nat) : List Nat :=
  let B := chi (rhoPi (theta A))
  B.set 0 (B.getD 0 0 ^^^ rc)

def keccakF (A : List Nat) : List Nat :=
  roundConst.foldl keccakRound A

/-- Multi-rate padding with Keccak's `0x01` domain byte. -/
def pad (msg : List Nat) : List Nat :=
  let padLen := 136 - msg.length % 136
  if padLen == 1 then msg ++ [0x81]
  else msg ++ [0x01] ++ List.replicate (padLen - 2) 0 ++ [0x80]

/-- A little-endian 8-byte lane from a byte list. -/
def bytesToLane (bs : List Nat) : Nat :=
  bs.foldr (fun b acc => b + 256 * acc) 0

def absorbBlock (st block : List Nat) : List Nat :=
  keccakF ((List.range 25).map (fun i =>
    st.getD i 0 ^^^ (if i < 17 then bytesToLane ((block.drop (8 * i)).take 8) else 0)))

def absorb (st msg : List Nat) : List Nat :=
  if msg.isEmpty then st
  else absorb (absorbBlock st (msg.take 136)) (msg.drop 136)
termination_by msg.length
decreasing_by
  simp only [List.length_drop]
  cases msg with
  | nil => simp at *
  | cons a l => simp; omega

def laneBytes (x : Nat) : List Nat :=
  (List.range 8).map (fun i => x / 256 ^ i % 256)

end Keccak

/-- Keccak-256 of a byte list: absorb the padded message, squeeze the first
32 bytes (lanes 0–3, little-endian). -/
def keccak256 (msg : List Nat) : List Nat :=
  let st := Keccak.absorb (List.replicate 25 0) (Keccak.pad msg)
  Keccak.laneBytes (st.getD 0 0) ++ Keccak.laneBytes (st.getD 1 0) ++
  Keccak.laneBytes (st.getD 2 0) ++ Keccak.laneBytes (st.getD 3 0)

/-! ## Verdict hashing — agent side (`src/agent/onChainProof.ts`)

`computeVerdictHash` calls `ethers.solidityPackedKeccak256` on types
`["string", "string", "uint256", "uint256"]` with values
`[postId, verdict, BigInt(Math.round(confidence)), BigInt(timestamp)]`.
ethers encodes a `string` argument as its raw UTF-8 bytes and a `uint256`
argument as 32 big-endian bytes, throwing when the value is negative or
does not fit in 256 bits; the pieces are concatenated with no length
prefixes.  Failure (out-of-range integer) is modelled as `none`. -/

/-- ethers `uint256` packed encoding: 32 big-endian bytes, defined only on
`[0, 2 ^ 256)` (ethers raises a numeric-fault error outside the range). -/
def ethersPackUint256 (v : ℤ) : Option (List Nat) :=
  if 0 ≤ v ∧ v < 2 ^ 256 then some (beBytes32 v.toNat) else none

/-- ethers `string` packed encoding: raw UTF-8 bytes. -/
def ethersPackString (s : String) : List Nat := utf8Bytes s

/-- `ethers.solidityPacked(["string","string","uint256","uint256"], ...)`. -/
def ethersSolidityPacked (a b : String) (c d : ℤ) : Option (List Nat) := do
  let cb ← ethersPackUint256 c
  let db ← ethersPackUint256 d
  pure (ethersPackString a ++ ethersPackString b ++ cb ++ db)

/-- Agent-side `computeVerdictHash(postId, verdict, confidence, timestamp)` —
`ethers.solidityPackedKeccak256` of the packed tuple, with
`BigInt(Math.round(confidence))`. -/
def computeVerdictHash (postId verdict : String) (confidence : ℚ)
    (timestamp : ℤ) : Option (List Nat) :=
  (ethersSolidityPacked postId verdict (jsRound confidence) timestamp).map keccak256

/-! ## Verdict hashing — CRE workflow (`cre-workflow/main.ts`)

The workflow's `computeVerdictHash` calls viem's
`keccak256(encodePacked(['string','string','uint256','uint256'], [postId,
verdict, BigInt(Math.round(confidence)), BigInt(timestamp)]))`.  viem packs a
`string` as UTF-8 bytes and a `uint256` as a 32-byte big-endian quantity,
raising `IntegerOutOfRangeError` for values outside `[0, 2 ^ 256)`. -/

namespace CreWorkflow

/-- viem's `uint256` branch of `encodePacked`: `numberToHex(value, size 32)`,
failing outside `[0, 2 ^ 256)`. -/
def viemPackUint256 (v : ℤ) : Option (List Nat) :=
  if 0 ≤ v ∧ v < 2 ^ 256 then some (beBytes32 v.toNat) else none

/-- viem's `string` branch of `encodePacked`: UTF-8 bytes of the string. -/
def viemPackString (s : String) : List Nat := utf8Bytes s

/-- viem `encodePacked(['string','string','uint256','uint256'], ...)`:
tight concatenation of the per-argument encodings. -/
def viemEncodePacked (a b : String) (c d : ℤ) : Option (List Nat) := do
  let cb ← viemPackUint256 c
  let db ← viemPackUint256 d
  pure (viemPackString a ++ viemPackString b ++ cb ++ db)

/-- CRE-workflow `computeVerdictHash`: viem `keccak256` over the packed
tuple, with `BigInt(Math.round(confidence))`. -/
def computeVerdictHash (postId verdict : String) (confidence : ℚ)
    (timestamp : ℤ) : Option (List Nat) :=
  (viemEncodePacked postId verdict (jsRound confidence) timestamp).map keccak256

end CreWorkflow

/-! ## Verdict hashing — the specification's byte layout

Modelled from the spec's words (§4.3), for the refinement claim: concatenate
the claim identity as UTF-8 bytes, the verdict label as UTF-8 bytes, the
confidence as a big-endian 256-bit unsigned integer, and the Unix timestamp
as a big-endian 256-bit unsigned integer, then apply Keccak-256; the
confidence is rounded to the nearest integer before encoding. -/
def specVerdictHash (claimId verdict : String) (confidence : ℚ)
    (timestamp : Nat) : List Nat :=
  keccak256 (utf8Bytes claimId ++ utf8Bytes verdict ++
    beBytes32 (jsRound confidence).toNat ++ beBytes32 timestamp)

/-! ## A small backtracking regex engine

The claim extractor (`src/agent/claimParser.ts`) and the verifiers match
JavaScript regular expressions.  We embed the exact patterns over a small
regex AST with JavaScript's leftmost-match, ordered-alternation,
greedy/lazy-quantifier backtracking semantics.  The matcher carries fuel for
termination; the fuel supplied by `reExec` is generous enough for every
pattern in the source (a repetition that fails to consume input exits its
loop, mirroring JavaScript's empty-match rule). -/

namespace Rx

inductive RE where
  | eps : RE
  | pred : (Char → Bool) → RE
  | seq : RE → RE → RE
  | alt : RE → RE → RE
  | star : Bool → RE → RE
  | opt : Bool → RE → RE
  | group : Nat → RE → RE
  | wb : RE

/-- Capture list: `(group index, start, stop)`, most recent first. -/
abbrev Caps := List (Nat × Nat × Nat)

/-- JavaScript `\w` (ASCII word character). -/
def isWordChar (c : Char) : Bool :=
  ('a' ≤ c && c ≤ 'z') || ('A' ≤ c && c ≤ 'Z') || ('0' ≤ c && c ≤ '9') || c == '_'

/-- The backtracking matcher: match `r` at position `i` of `s`, then call the
continuation `k`.  `star`'s loop body must advance the position, as in
JavaScript. -/
def mt (s : List Char) : Nat → RE → Nat → Caps →
    (Nat → Caps → Option (Nat × Caps)) → Option (Nat × Caps)
  | 0, _, _, _, _ => none
  | f + 1, r, i, cs, k =>
    match r with
    | .eps => k i cs
    | .pred p =>
      match s.get? i with
      | some c => if p c then k (i + 1) cs else none
      | none => none
    | .seq a b => mt s f a i cs (fun j cs' => mt s f b j cs' k)
    | .alt a b => (mt s f a i cs k).orElse (fun _ => mt s f b i cs k)
    | .opt g r₁ =>
      if g then (mt s f r₁ i cs k).orElse (fun _ => k i cs)
      else (k i cs).orElse (fun _ => mt s f r₁ i cs k)
    | .star g r₁ =>
      let step := fun j cs' =>
        if i < j then mt s f (.star g r₁) j cs' k else none
      if g then (mt s f r₁ i cs step).orElse (fun _ => k i cs)
      else (k i cs).orElse (fun _ => mt s f r₁ i cs step)
    | .group n r₁ => mt s f r₁ i cs (fun j cs' => k j ((n, i, j) :: cs'))
    | .wb =>
      let wl := if i = 0 then false else (s.get? (i - 1)).elim false isWordChar
      let wr := (s.get? i).elim false isWordChar
      if wl ≠ wr then k i cs else none

def fuelFor (s : List Char) : Nat := 20 * s.length + 400

/-- Try to match `re` anchored at position `i`. -/
def execAt (re : RE) (s : List Char) (i : Nat) : Option (Nat × Caps) :=
  mt s (fuelFor s) re i [] (fun j cs => some (j, cs))

def searchAux (re : RE) (s : List Char) : Nat → Nat → Option (Nat × Nat × Caps)
  | _, 0 => none
  | i, rem + 1 =>
    match execAt re s i with
    | some (j, cs) => some (i, j, cs)
    | none => searchAux re s (i + 1) rem

/-- `RegExp.exec`: the leftmost match as `(start, stop, captures)`. -/
def reExec (re : RE) (s : List Char) : Option (Nat × Nat × Caps) :=
  searchAux re s 0 (s.length + 1)

/-- `RegExp.test`. -/
def reTest (re : RE) (s : List Char) : Bool := (reExec re s).isSome

/-- Text of capture group `n` (the latest capture wins, as in JavaScript). -/
def capSlice (s : List Char) (cs : Caps) (n : Nat) : Option (List Char) :=
  (cs.find? (fun t => t.1 == n)).map (fun t => (s.drop t.2.1).take (t.2.2 - t.2.1))

/-- Single literal character. -/
def chr (c : Char) : RE := .pred (fun x => x == c)

/-- Case-insensitive literal character (the `i` flag). -/
def chri (c : Char) : RE := .pred (fun x => x.toLower == c.toLower)

/-- Case-sensitive literal word. -/
def lit (w : String) : RE := w.data.foldr (fun c acc => .seq (chr c) acc) .eps

/-- Case-insensitive literal word. -/
def liti (w : String) : RE := w.data.foldr (fun c acc => .seq (chri c) acc) .eps

/-- Never-matching regex (base case for empty alternations). -/
def fail : RE := .pred (fun _ => false)

/-- Ordered alternation, tried left to right as in JavaScript. -/
def alts : List RE → RE
  | [] => fail
  | [r] => r
  | r :: rest => .alt r (alts rest)

def seqs (l : List RE) : RE := l.foldr .seq .eps

/-- One-or-more, `+` (greedy) or `+?` (lazy). -/
def plus (g : Bool) (r : RE) : RE := .seq r (.star g r)

/-- JavaScript `\d`. -/
def digit : RE := .pred Char.isDigit

/-- JavaScript `\s` (the whitespace characters appearing in the inputs). -/
def isSpaceChar (c : Char) : Bool :=
  c == ' ' || c == '\t' || c == '\n' || c == '\r' ||
  c == Char.ofNat 11 || c == Char.ofNat 12

def space : RE := .pred isSpaceChar

end Rx

/-! ## Claim extractor (`src/agent/claimParser.ts`) -/

open Rx

/-- Decimal digits to a natural number. -/
def digitsVal (cs : List Char) : Nat :=
  cs.foldl (fun acc c => 10 * acc + (c.toNat - '0'.toNat)) 0

/-- JavaScript `parseFloat` on the strings produced by the numeric capture
groups (digits/commas already stripped of commas, optionally a dot and more
digits).  `none` models `NaN` (no digit at all); code that would propagate a
`NaN` number is modelled as extraction failure. -/
def jsParseFloat (cs : List Char) : Option ℚ :=
  let ip := cs.takeWhile Char.isDigit
  let rest := cs.dropWhile Char.isDigit
  match rest with
  | '.' :: rest' =>
    let fp := rest'.takeWhile Char.isDigit
    if ip.isEmpty && fp.isEmpty then none
    else some ((digitsVal ip : ℚ) + (digitsVal fp : ℚ) / (10 : ℚ) ^ fp.length)
  | _ => if ip.isEmpty then none else some (digitsVal ip : ℚ)

/-- Case-sensitive substring test (JavaScript `String.includes`). -/
def leadEq : List Char → List Char → Bool
  | [], _ => true
  | _ :: _, [] => false
  | p :: ps, c :: cs => p == c && leadEq ps cs

def hasSub : List Char → List Char → Bool
  | s, pat =>
    match s with
    | [] => pat.isEmpty
    | _ :: rest => leadEq pat s || hasSub rest pat

def PRICE_ASSETS : List String :=
  ["ETH", "BTC", "SOL", "BNB", "MATIC", "AVAX", "DOT", "LINK", "UNI", "AAVE"]

def digitComma : RE := .pred (fun c => c.isDigit || c == ',')

/-- `[\d,]+(?:\.\d+)?` / `[0-9]+(?:\.\d+)?` style numeric capture body. -/
def numBody : RE :=
  seqs [plus true digit, .opt true (seqs [chr '.', plus true digit])]

def numCommaBody : RE :=
  seqs [plus true digitComma, .opt true (seqs [chr '.', plus true digit])]

/-- The main price pattern of `parsePriceClaim` (flags `gi`):
`\b(ASSETS)(?:\/USD)?\b[^.!?\n]*?(?:will\s+)?(?:exceed|above|over|surpass|greater\s+than|>)\s*\$?([\d,]+(?:\.\d+)?)[kKmM]?`. -/
def pricePattern : RE :=
  seqs [.wb, .group 1 (alts (PRICE_ASSETS.map liti)),
    .opt true (seqs [chr '/', liti "USD"]), .wb,
    .star false (.pred (fun c => !(c == '.' || c == '!' || c == '?' || c == '\n'))),
    .opt true (seqs [liti "will", plus true space]),
    alts [liti "exceed", liti "above", liti "over", liti "surpass",
      seqs [liti "greater", plus true space, liti "than"], chr '>'],
    .star true space, .opt true (chr '$'),
    .group 2 numCommaBody,
    .opt true (.pred (fun c => c == 'k' || c == 'K' || c == 'm' || c == 'M'))]

/-- The reverse price pattern (`"$4200 for ETH"`, flags `gi`):
`\$([0-9,]+(?:\.\d+)?)\s*(?:for|on)?\s*(ETH|BTC|SOL|BNB|LINK)`. -/
def revPricePattern : RE :=
  seqs [chr '$', .group 1 numCommaBody, .star true space,
    .opt true (.alt (liti "for") (liti "on")), .star true space,
    .group 2 (alts [liti "ETH", liti "BTC", liti "SOL", liti "BNB", liti "LINK"])]

structure PriceParse where
  value : Option ℚ
  asset : Option String
deriving Repr, DecidableEq

/-- `parsePriceClaim(content)`.  After a match of the main pattern the code
reads `content[match.index + match[0].length]` — the character *after* the
match — as the k/K/m/M multiplier suffix. -/
def parsePriceClaim (content : String) : PriceParse :=
  let s := content.data
  match reExec pricePattern s with
  | some (_, stop, caps) =>
    let raw := ((capSlice s caps 2).getD []).filter (fun c => !(c == ','))
    let suffix := s.get? stop
    let multiplier : ℚ :=
      if suffix == some 'k' || suffix == some 'K' then 1000
      else if suffix == some 'm' || suffix == some 'M' then 1000000 else 1
    { value := (jsParseFloat raw).map (fun v => v * multiplier),
      asset := some (String.mk (((capSlice s caps 1).getD []).map Char.toUpper)) }
  | none =>
    match reExec revPricePattern s with
    | some (_, _, caps) =>
      { value := jsParseFloat (((capSlice s caps 1).getD []).filter (fun c => !(c == ','))),
        asset := some (String.mk (((capSlice s caps 2).getD []).map Char.toUpper)) }
    | none => { value := none, asset := none }

/-- The weather pattern (flags `gi`):
`(?:precipitation|rain(?:fall)?|flooding|snow)\s*(?:probability|chance|risk|>|above|over)?\s*([0-9]+)\s*%`
`|([0-9]+)\s*%\s*(?:chance|probability|risk|likelihood)\s*(?:of\s+)?(?:rain|snow|flooding|precipitation)`. -/
def weatherPattern : RE :=
  .alt
    (seqs [alts [liti "precipitation", seqs [liti "rain", .opt true (liti "fall")],
        liti "flooding", liti "snow"],
      .star true space,
      .opt true (alts [liti "probability", liti "chance", liti "risk", chr '>',
        liti "above", liti "over"]),
      .star true space, .group 1 (plus true digit), .star true space, chr '%'])
    (seqs [.group 2 (plus true digit), .star true space, chr '%', .star true space,
      alts [liti "chance", liti "probability", liti "risk", liti "likelihood"],
      .star true space, .opt true (seqs [liti "of", plus true space]),
      alts [liti "rain", liti "snow", liti "flooding", liti "precipitation"]])

/-- `parseWeatherClaim(content)`: `parseFloat(m[1] ?? m[2])`. -/
def parseWeatherClaim (content : String) : Option ℚ :=
  match reExec weatherPattern content.data with
  | some (_, _, caps) =>
    jsParseFloat (((capSlice content.data caps 1).orElse
      (fun _ => capSlice content.data caps 2)).getD [])
  | none => none

/-- The TVL pattern (flags `gi`):
`TVL\s+(?:dropped|fell|decreased|down|fell\s+by)\s+([0-9]+(?:\.\d+)?)\s*%`. -/
def tvlPattern : RE :=
  seqs [liti "TVL", plus true space,
    alts [liti "dropped", liti "fell", liti "decreased", liti "down",
      seqs [liti "fell", plus true space, liti "by"]],
    plus true space, .group 1 numBody, .star true space, chr '%']

/-- The gas pattern (flags `gi`):
`gas\s+fees?\s+(?:above|over|exceed|exceeds)\s+([0-9]+(?:\.\d+)?)\s*gwei`. -/
def gasPattern : RE :=
  seqs [liti "gas", plus true space, liti "fee", .opt true (chri 's'), plus true space,
    alts [liti "above", liti "over", liti "exceed", liti "exceeds"],
    plus true space, .group 1 numBody, .star true space, liti "gwei"]

/-- `parseDefiClaim(content)`: try the TVL pattern, then the gas pattern. -/
def parseDefiClaim (content : String) : Option ℚ :=
  match reExec tvlPattern content.data with
  | some (_, _, caps) => jsParseFloat ((capSlice content.data caps 1).getD [])
  | none =>
    match reExec gasPattern content.data with
    | some (_, _, caps) => jsParseFloat ((capSlice content.data caps 1).getD [])
    | none => none

def PRE_FILTER_TOKENS : List String :=
  ["$", "USD", "ETH", "BTC", "SOL", "TVL", "%", "gwei",
   "precipitation", "flooding", "price"]

/-- Hard pre-filter: the post must contain one of the literal tokens. -/
def passesPreFilter (content : String) : Bool :=
  PRE_FILTER_TOKENS.any (fun tok => hasSub content.data tok.data)

/-- Gate: a known asset ticker at word boundaries (`i` flag). -/
def isExplicitPriceClaim (c : String) : Bool :=
  (PRICE_ASSETS.any (fun a => reTest (seqs [.wb, liti a, .wb]) c.data)) &&
  reTest (seqs [chr '$', digit]) c.data &&
  reTest (seqs [.wb, .opt true (seqs [liti "will", plus true space]),
    alts [liti "exceed", liti "reach", liti "hit", liti "surpass", liti "above",
      liti "below", liti "under", liti "over",
      seqs [liti "drop", plus true space, .alt (liti "to") (liti "below")]],
    .wb]) c.data

/-- Gate: a `number%` token and a weather-domain keyword. -/
def isExplicitWeatherClaim (c : String) : Bool :=
  reTest (seqs [plus true digit, .star true space, chr '%']) c.data &&
  reTest (seqs [.wb, alts [liti "precipitation",
    seqs [liti "rain", .opt true (liti "fall")], liti "flooding", liti "snow",
    liti "humidity"], .wb]) c.data

/-- Gate: an explicit TVL-drop phrase (case-sensitive regex) or a gas-fee
phrase (`i` flag). -/
def isExplicitDefiClaim (c : String) : Bool :=
  reTest (seqs [lit "TVL", plus true space,
    alts [lit "dropped", lit "fell", lit "decreased", lit "down",
      seqs [lit "fell", plus true space, lit "by"]],
    plus true space, digit]) c.data ||
  reTest (seqs [liti "gas", plus true space, liti "fee", .opt true (chri 's'),
    plus true space,
    alts [liti "above", liti "over", liti "exceed", liti "exceeds"],
    plus true space, plus true digit, .star true space, liti "gwei"]) c.data

inductive ClaimType where
  | price | weather | defi | unknown
deriving DecidableEq, Repr

structure ParsedClaim where
  postId : String
  agentName : String
  claimType : ClaimType
  claimText : String
  extractedValue : Option ℚ
  asset : Option String
deriving Repr, DecidableEq

structure MoltbookPost where
  id : String
  authorName : Option String
  authorUsername : Option String
  content : String
deriving Repr, DecidableEq

/-- JavaScript `c.slice(0, 280)`. -/
def slice280 (c : String) : String := String.mk (c.data.take 280)

/-- `parseClaim(post)`: pre-filter, then the price, weather and defi gates in
order; each gated branch returns only when its parser extracted a value,
otherwise control falls through; anything else is `unknown`. -/
def parseClaim (post : MoltbookPost) : ParsedClaim :=
  let c := post.content
  let name := post.authorName.getD (post.authorUsername.getD "unknown")
  if !passesPreFilter c then
    { postId := post.id, agentName := name, claimType := .unknown,
      claimText := slice280 c, extractedValue := none, asset := none }
  else
    let pr := if isExplicitPriceClaim c then parsePriceClaim c
      else { value := none, asset := none }
    match pr.value with
    | some v =>
      { postId := post.id, agentName := name, claimType := .price,
        claimText := slice280 c, extractedValue := some v, asset := pr.asset }
    | none =>
      match (if isExplicitWeatherClaim c then parseWeatherClaim c else none) with
      | some v =>
        { postId := post.id, agentName := name, claimType := .weather,
          claimText := slice280 c, extractedValue := some v, asset := none }
      | none =>
        match (if isExplicitDefiClaim c then parseDefiClaim c else none) with
        | some v =>
          { postId := post.id, agentName := name, claimType := .defi,
            claimText := slice280 c, extractedValue := some v, asset := none }
        | none =>
          { postId := post.id, agentName := name, claimType := .unknown,
            claimText := slice280 c, extractedValue := none, asset := none }

/-! ## Oracle verifiers (`src/agent/creVerifier.ts`)

Oracle HTTP responses are modelled as explicit structures; a thrown
JavaScript error is an `Except.error` carrying the message.  JavaScript's
locale/decimal number formatting inside the human-readable `details` strings
is abstracted as `toString` of the rational — no claim depends on the exact
digits of those strings. -/

structure VerificationResult where
  verdict : String
  confidence : ℚ
  source : String
  currentValue : Option ℚ
  details : String
deriving Repr, DecidableEq

/-- Number-to-string abstraction for the `details` strings. -/
def qStr (q : ℚ) : String := toString q

/-- The `unverifiable(source, details)` helper: confidence 55. -/
def unverifiable (source details : String) : VerificationResult :=
  { verdict := "UNVERIFIABLE", confidence := 55, source := source,
    currentValue := none, details := details }

def ASSET_IDS : List (String × String) :=
  [("ETH", "ethereum"), ("BTC", "bitcoin"), ("SOL", "solana"),
   ("BNB", "binancecoin"), ("MATIC", "matic-network"), ("AVAX", "avalanche-2"),
   ("DOT", "polkadot"), ("LINK", "chainlink"), ("UNI", "uniswap"),
   ("AAVE", "aave")]

/-- `/exceed|above|over|surpass|greater|>/i.test(claimText)`. -/
def isExceedTest (t : String) : Bool :=
  reTest (alts [liti "exceed", liti "above", liti "over", liti "surpass",
    liti "greater", chr '>']) t.data

/-- CoinGecko spot-price response: `ok`/`status` of the transport,
`price = data[coinId]?.usd`. -/
structure PriceHttp where
  ok : Bool
  status : Nat
  errText : String
  price : Option ℚ
deriving Repr, DecidableEq

/-- The verdict branch structure of `verifyPriceClaim` (the `let verdict`
assignments of the source). -/
def priceVerdict (isExceed : Bool) (currentPrice claimed : ℚ) : String :=
  let diffPct := |currentPrice - claimed| / claimed * 100
  if isExceed then
    if claimed ≤ currentPrice then "TRUE"
    else if 20 < diffPct then "FALSE"
    else "UNVERIFIABLE"
  else "UNVERIFIABLE"

/-- The confidence branch structure of `verifyPriceClaim` (the
`let confidence` assignments of the source), followed by the final
`Math.round(Math.min(99, confidence))`. -/
def priceConf (isExceed : Bool) (currentPrice claimed : ℚ) : ℚ :=
  let diffPct := |currentPrice - claimed| / claimed * 100
  let c : ℚ :=
    if isExceed then
      if claimed ≤ currentPrice then
        (if 20 < diffPct then min 99 (90 + diffPct / 10) else 82)
      else if 20 < diffPct then min 99 (85 + diffPct / 5)
      else ((jsRound (60 + diffPct * (4 / 5)) : ℤ) : ℚ)
    else 60
  ((jsRound (min 99 c) : ℤ) : ℚ)

/-- `verifyPriceClaim(claim)` against a CoinGecko response.  A non-2xx
response is thrown (`Except.error`), exactly as
`if (!res.ok) throw new Error(...)` in the source. -/
def verifyPriceClaim (claim : ParsedClaim) (resp : PriceHttp) :
    Except String VerificationResult :=
  if (match claim.asset with
      | none => true
      | some a => a == "") || claim.extractedValue.isNone then
    .ok (unverifiable "CoinGecko" "Could not extract price threshold from claim")
  else
    match ASSET_IDS.lookup (claim.asset.getD "") with
    | none => .ok (unverifiable "CoinGecko" ("Unknown asset: " ++ claim.asset.getD ""))
    | some _coinId =>
      if !resp.ok then
        .error ("CoinGecko " ++ toString resp.status ++ ": " ++ resp.errText)
      else
        match resp.price with
        | none =>
          .ok (unverifiable "CoinGecko"
            ("Price data unavailable for " ++ claim.asset.getD ""))
        | some currentPrice =>
          let claimed := claim.extractedValue.getD 0
          let diffPct := |currentPrice - claimed| / claimed * 100
          let isExceed := isExceedTest claim.claimText
          .ok { verdict := priceVerdict isExceed currentPrice claimed,
                confidence := priceConf isExceed currentPrice claimed,
                source := "CoinGecko",
                currentValue := some currentPrice,
                details := claim.asset.getD "" ++ "/USD: $" ++ qStr currentPrice ++
                  " | claimed threshold: $" ++ qStr claimed ++
                  " | diff: " ++ qStr diffPct ++ "%" }

/-- OpenWeatherMap current-weather response (rain/snow volumes and the
leading weather-condition code). -/
structure WeatherHttp where
  ok : Bool
  status : Nat
  errText : String
  rain1h : Option ℚ
  rain3h : Option ℚ
  snow1h : Option ℚ
  snow3h : Option ℚ
  weatherId : Option ℤ
deriving Repr, DecidableEq

/-- The precipitation estimate of `verifyWeatherClaim`:
`rainVol ?? snowVol` volumes scaled by 25, capped at 100, raised to at least
60 when the leading weather-condition code is below 700. -/
def weatherActualPct (resp : WeatherHttp) : ℚ :=
  let rainVol := (resp.rain1h.orElse (fun _ => resp.rain3h)).getD 0
  let snowVol := (resp.snow1h.orElse (fun _ => resp.snow3h)).getD 0
  let precipPct := min 100 ((rainVol + snowVol) * 25)
  let weatherId := resp.weatherId.getD 800
  if weatherId < 700 then max precipPct 60 else precipPct

/-- `verifyWeatherClaim(claim)`: missing API key resolves locally to
`UNVERIFIABLE`; a non-2xx response is thrown. -/
def verifyWeatherClaim (claim : ParsedClaim) (key : Option String)
    (resp : WeatherHttp) : Except String VerificationResult :=
  if (match key with
      | none => true
      | some k => k == "") then
    .ok (unverifiable "OpenWeatherMap" "OPENWEATHER_API_KEY not configured")
  else if !resp.ok then
    .error ("OpenWeatherMap " ++ toString resp.status ++ ": " ++ resp.errText)
  else
    match claim.extractedValue with
    | none =>
      .ok (unverifiable "OpenWeatherMap"
        ("Current precipitation estimate for London: " ++
          qStr (weatherActualPct resp) ++ "%"))
    | some claimed =>
      let diff := |weatherActualPct resp - claimed|
      .ok { verdict := if 20 < diff then
              (if claimed ≤ weatherActualPct resp then "TRUE" else "FALSE")
            else "UNVERIFIABLE",
            confidence := if 20 < diff then 85 else 65,
            source := "OpenWeatherMap",
            currentValue := some (weatherActualPct resp),
            details := "Precipitation estimate (London): " ++
              qStr (weatherActualPct resp) ++
              "% | claimed: " ++ qStr claimed ++ "%" }

/-- DeFi Llama protocols response: `change_1d` per protocol (`none` for a
missing or null field). -/
structure TvlHttp where
  ok : Bool
  status : Nat
  changes : List (Option ℚ)
deriving Repr, DecidableEq

/-- The gas branch's successful verdict computation:
`currentGwei = gweiRaw / 1e9` (the hex-decoded `eth_gasPrice` in wei),
compared against the claimed gwei value. -/
def gasVerify (claimed : ℚ) (gweiRaw : Nat) : VerificationResult :=
  let currentGwei : ℚ := (gweiRaw : ℚ) / 1000000000
  let diffPct := |currentGwei - claimed| / claimed * 100
  { verdict := if 20 < diffPct then
      (if claimed ≤ currentGwei then "TRUE" else "FALSE")
    else "UNVERIFIABLE",
    confidence := if 20 < diffPct then min 99 (85 + diffPct / 5) else 65,
    source := "Ethereum RPC",
    currentValue := some (((jsRound (currentGwei * 10) : ℤ) : ℚ) / 10),
    details := "Gas price: " ++ qStr currentGwei ++ " gwei | claimed: " ++
      qStr claimed ++ " gwei" }

/-- The mean day-over-day TVL change across the protocols that report one
(the `withChange` / `avgChange1d` computation of the source). -/
def tvlAvgChange (tvlResp : TvlHttp) : ℚ :=
  let withChange := tvlResp.changes.filterMap id
  if 0 < withChange.length then withChange.sum / withChange.length else 0

/-- The gas branch of `verifyDefiClaim`: runs when the claim text matches
`/gas\s+fee/i` and a value was extracted; `gasR`'s failure (the `try` around
the RPC call) yields `none`, falling through to the TVL branch. -/
def defiGasAttempt (claim : ParsedClaim) (gasR : Except String Nat) :
    Option VerificationResult :=
  if reTest (seqs [liti "gas", plus true space, liti "fee"]) claim.claimText.data then
    match claim.extractedValue, gasR with
    | some claimed, .ok gweiRaw => some (gasVerify claimed gweiRaw)
    | _, _ => none
  else none

/-- `verifyDefiClaim(claim)`: the gas attempt first, then the DeFi Llama
TVL comparison. -/
def verifyDefiClaim (claim : ParsedClaim) (gasR : Except String Nat)
    (tvlResp : TvlHttp) : Except String VerificationResult :=
  match defiGasAttempt claim gasR with
  | some r => .ok r
  | none =>
    if !tvlResp.ok then .error ("DeFi Llama " ++ toString tvlResp.status)
    else
      match claim.extractedValue with
      | some claimedDrop =>
        let actualDrop := max 0 (-(tvlAvgChange tvlResp))
        let diff := |actualDrop - claimedDrop|
        .ok { verdict := if 20 < diff then
                (if claimedDrop ≤ actualDrop then "TRUE" else "FALSE")
              else "UNVERIFIABLE",
              confidence := if 20 < diff then 85 else 65,
              source := "DeFi Llama",
              currentValue := some (((jsRound (tvlAvgChange tvlResp * 100) : ℤ) : ℚ) / 100),
              details := "Avg 24h TVL change | claimed drop: " ++ qStr claimedDrop ++ "%" }
      | none => .ok (unverifiable "DeFi Llama" "Could not extract claim value for verification")

/-- The oracle environment for one `verifyClaim` call. -/
structure OracleEnv where
  openweatherKey : Option String
  priceResp : PriceHttp
  weatherResp : WeatherHttp
  gasR : Except String Nat
  tvlResp : TvlHttp
deriving Repr

/-- `verifyClaim(claim)`: dispatch by claim type. -/
def verifyClaim (claim : ParsedClaim) (env : OracleEnv) :
    Except String VerificationResult :=
  match claim.claimType with
  | .price => verifyPriceClaim claim env.priceResp
  | .weather => verifyWeatherClaim claim env.openweatherKey env.weatherResp
  | .defi => verifyDefiClaim claim env.gasR env.tvlResp
  | .unknown => .ok (unverifiable "N/A" "Unknown claim type")

/-- CRE workflow `evaluateClaim(ethPrice, threshold)`
(`cre-workflow/main.ts`). -/
structure VerdictResult where
  verdict : String
  confidence : ℚ
  ethPrice : ℚ
deriving Repr, DecidableEq

def evaluateClaim (ethPrice threshold : ℚ) : VerdictResult :=
  if ethPrice == 0 then { verdict := "UNVERIFIABLE", confidence := 0, ethPrice := ethPrice }
  else
    let distancePct := |ethPrice - threshold| / threshold
    let confidence := min 99 ((jsRound (50 + distancePct * 500) : ℤ) : ℚ)
    { verdict := if threshold < ethPrice then "TRUE" else "FALSE",
      confidence := confidence, ethPrice := ethPrice }

/-! ## Dedup and rate bookkeeping (`src/agent/moltbookPublisher.ts`) -/

/-- `canPostComment()`: prune timestamps older than 3,600,000 ms from the
front of the ordered sequence (the `while … shift()` loop is exactly
`dropWhile` on the front), then test `length < 50`.  Returns the decision
and the pruned window. -/
def canPostComment (now : ℤ) (ts : List ℤ) : Bool × List ℤ :=
  let ts' := ts.dropWhile (fun t => 3600000 < now - t)
  (ts'.length < 50, ts')

/-- `recordComment()`: append the current time. -/
def recordComment (now : ℤ) (ts : List ℤ) : List ℤ := ts ++ [now]

/-- `isAlreadyVerified(postId)` over the persisted id list. -/
def isAlreadyVerified (ids : List String) (postId : String) : Bool :=
  ids.contains postId

/-- `markAsVerified(postId)`: push if absent. -/
def markAsVerified (ids : List String) (postId : String) : List String :=
  if ids.contains postId then ids else ids ++ [postId]

/-- The persisted `StoredVerdict` record. -/
structure StoredVerdict where
  postId : String
  agentName : String
  claimText : String
  verdict : String
  confidence : ℚ
  source : String
  currentValue : Option ℚ
  txHash : String
  verdictHash : String
  timestamp : String
  commentId : Option String
deriving Repr, DecidableEq

/-- `"0x" + "0".repeat(64)` — the null/zero transaction id. -/
def zeroHash : String := "0x" ++ String.mk (List.replicate 64 '0')

def mkStoredVerdict (claim : ParsedClaim) (result : VerificationResult)
    (txHash verdictHash : String) (commentId : Option String)
    (nowIso : String) : StoredVerdict :=
  { postId := claim.postId, agentName := claim.agentName,
    claimText := claim.claimText, verdict := result.verdict,
    confidence := result.confidence, source := result.source,
    currentValue := result.currentValue, txHash := txHash,
    verdictHash := verdictHash, timestamp := nowIso, commentId := commentId }

/-- `saveVerdict(...)`: `unshift` the record, keep the 100 most recent. -/
def saveVerdict (log : List StoredVerdict) (claim : ParsedClaim)
    (result : VerificationResult) (txHash verdictHash : String)
    (commentId : Option String) (nowIso : String) : List StoredVerdict :=
  (mkStoredVerdict claim result txHash verdictHash commentId nowIso :: log).take 100

/-! ## Per-claim step of the cycle orchestrator (`src/agent/index.ts`,
`runCycle`)

The per-claim body of the loop, with the outcomes of the three I/O calls
(`verifyClaim`, `storeVerdictOnChain`, `postVerdict`) passed in as explicit
`Except` inputs.  The outer `try/catch` of the loop body catches a
verification failure (nothing persisted, claim not marked); the two inner
`try/catch`es make proof submission and notification non-blocking. -/

structure OnChainProof where
  txHash : String
  verdictHash : String
deriving Repr, DecidableEq

structure AgentState where
  verified : List String
  verdicts : List StoredVerdict
deriving Repr, DecidableEq

structure StepTrace where
  skipped : Bool
  verifyAttempted : Bool
  proofAttempted : Bool
  notifyAttempted : Bool
  saved : Option StoredVerdict
  errorLogged : Bool
deriving Repr, DecidableEq

/-- Trace of the `isAlreadyVerified` skip: nothing runs at all. -/
def skipTrace : StepTrace :=
  { skipped := true, verifyAttempted := false, proofAttempted := false,
    notifyAttempted := false, saved := none, errorLogged := false }

/-- Trace of a caught verification failure: logged, nothing persisted. -/
def verifyErrTrace : StepTrace :=
  { skipped := false, verifyAttempted := true, proofAttempted := false,
    notifyAttempted := false, saved := none, errorLogged := true }

def stepClaim (st : AgentState) (claim : ParsedClaim) (nowIso : String)
    (verifyR : Except String VerificationResult)
    (proofR : Except String OnChainProof)
    (notifyR : Except String (Option String)) : AgentState × StepTrace :=
  if isAlreadyVerified st.verified claim.postId then (st, skipTrace)
  else
    match verifyR with
    | .error _ => (st, verifyErrTrace)
    | .ok result =>
      let txPair : String × String :=
        match proofR with
        | .ok proof => (proof.txHash, proof.verdictHash)
        | .error _ => (zeroHash, zeroHash)
      let commentId : Option String :=
        match notifyR with
        | .ok id => id
        | .error _ => none
      let sv := mkStoredVerdict claim result txPair.1 txPair.2 commentId nowIso
      ({ verified := markAsVerified st.verified claim.postId,
         verdicts := (sv :: st.verdicts).take 100 },
       { skipped := false, verifyAttempted := true, proofAttempted := true,
         notifyAttempted := true, saved := some sv, errorLogged := false })

/-- One cycle over a claim list: claims are processed strictly sequentially,
each step's failure never aborting the remainder. -/
def runClaims (st : AgentState) :
    List (ParsedClaim × String × Except String VerificationResult ×
      Except String OnChainProof × Except String (Option String)) → AgentState
  | [] => st
  | (c, nowIso, v, p, n) :: rest => runClaims (stepClaim st c nowIso v p n).1 rest

/-! ## Projections used in theorem statements -/

def exVerdict (e : Except String VerificationResult) : Option String :=
  match e with
  | .ok r => some r.verdict
  | .error _ => none

def exConf (e : Except String VerificationResult) : Option ℚ :=
  match e with
  | .ok r => some r.confidence
  | .error _ => none

/-! ## Concrete fixtures

`demoClaim1` is the first entry of `DEMO_CLAIMS` in `src/agent/index.ts`;
the others are concrete oracle responses used to evaluate the pipeline at
the spec's test vectors. -/

def demoClaim1 : ParsedClaim :=
  { postId := "demo-001", agentName := "demo-agent", claimType := .price,
    claimText := "ETH will exceed $3,500 by end of week",
    extractedValue := some 3500, asset := some "ETH" }

/-- A 200 CoinGecko response carrying the given spot price. -/
def okPrice (p : ℚ) : PriceHttp :=
  { ok := true, status := 200, errText := "", price := some p }

/-- A 500 CoinGecko response (transport error). -/
def badPriceResp : PriceHttp :=
  { ok := false, status := 500, errText := "boom", price := none }

/-- A parsed gas-fee claim (`"gas fees above 50 gwei"`). -/
def gasClaim : ParsedClaim :=
  { postId := "gas-1", agentName := "a", claimType := .defi,
    claimText := "gas fees above 50 gwei", extractedValue := some 50,
    asset := none }

/-- An oracle environment whose RPC reports a gas price of 62 gwei. -/
def gasEnv : OracleEnv :=
  { openweatherKey := none,
    priceResp := { ok := true, status := 200, errText := "", price := none },
    weatherResp := { ok := true, status := 200, errText := "", rain1h := none,
                     rain3h := none, snow1h := none, snow3h := none, weatherId := none },
    gasR := .ok 62000000000,
    tvlResp := { ok := true, status := 200, changes := [] } }

/-- What `verifyClaim gasClaim gasEnv` evaluates to. -/
def gasResult : VerificationResult :=
  { verdict := "TRUE", confidence := 449 / 5, source := "Ethereum RPC",
    currentValue := some 62,
    details := "Gas price: " ++ qStr 62 ++ " gwei | claimed: " ++ qStr 50 ++ " gwei" }

/-! ## Helper lemmas -/

theorem contains_markAsVerified (ids : List String) (pid : String) :
    (markAsVerified ids pid).contains pid = true := by
  unfold markAsVerified
  split
  · assumption
  · simp

theorem jsRound_nonneg {q : ℚ} (h : 0 ≤ q) : 0 ≤ jsRound q := by
  unfold jsRound
  rw [Int.le_floor]
  push_cast
  linarith

theorem jsRound_le_99 {q : ℚ} (h : q ≤ 99) : jsRound q ≤ 99 := by
  unfold jsRound
  have : ((99 : ℤ) : ℚ) + 1 = 100 := by norm_num
  rw [Int.floor_le_iff]
  push_cast
  linarith

/-- The price/gas confidence clamp `Math.round(Math.min(99, c))` lies in
`[0, 99]` whenever `c` is nonnegative. -/
theorem clamp_bounds {x : ℚ} (hx : 0 ≤ x) :
    0 ≤ ((jsRound (min 99 x) : ℤ) : ℚ) ∧ ((jsRound (min 99 x) : ℤ) : ℚ) ≤ 99 := by
  have h0 : 0 ≤ jsRound (min 99 x) := jsRound_nonneg (le_min (by norm_num) hx)
  have h1 : jsRound (min 99 x) ≤ 99 := jsRound_le_99 (min_le_left _ _)
  constructor
  · exact_mod_cast h0
  · exact_mod_cast h1

end AgentVerifier

namespace AgentVerifier

/-! ## More fixtures for witnesses -/

/-- The empty initial agent state. -/
def st0 : AgentState := { verified := [], verdicts := [] }

/-- A concrete verification result used to drive `stepClaim` in witnesses. -/
def demoResult : VerificationResult :=
  { verdict := "FALSE", confidence := 94, source := "CoinGecko",
    currentValue := some (185768 / 100), details := "demo" }

/-- A concrete on-chain proof outcome. -/
def demoProof : OnChainProof := { txHash := "0xabc", verdictHash := "0xdef" }

/-- A 502 OpenWeatherMap response (transport error). -/
def badWeatherResp : WeatherHttp :=
  { ok := false, status := 502, errText := "bad gateway", rain1h := none,
    rain3h := none, snow1h := none, snow3h := none, weatherId := none }

/-! ## Helper lemmas for the confidence analysis -/

theorem mem_markAsVerified (ids : List String) (pid : String) :
    pid ∈ markAsVerified ids pid := by
  unfold markAsVerified
  split
  · simpa using ‹ids.contains pid = true›
  · simp

theorem unv_bounds (s d : String) :
    0 ≤ (unverifiable s d).confidence ∧ (unverifiable s d).confidence ≤ 99 ∧
      (unverifiable s d).confidence.den = 1 :=
  ⟨by norm_num [unverifiable], by norm_num [unverifiable], by simp [unverifiable]⟩

theorem priceConf_bounds (ex : Bool) (cp cl : ℚ) (hcl : 0 ≤ cl) :
    0 ≤ priceConf ex cp cl ∧ priceConf ex cp cl ≤ 99 ∧ (priceConf ex cp cl).den = 1 := by
  unfold priceConf
  dsimp only
  have hd : 0 ≤ |cp - cl| / cl * 100 :=
    mul_nonneg (div_nonneg (abs_nonneg _) hcl) (by norm_num)
  have hc : 0 ≤ (if ex = true then
      if cl ≤ cp then
        (if 20 < |cp - cl| / cl * 100 then min 99 (90 + |cp - cl| / cl * 100 / 10) else 82)
      else if 20 < |cp - cl| / cl * 100 then min 99 (85 + |cp - cl| / cl * 100 / 5)
      else ((jsRound (60 + |cp - cl| / cl * 100 * (4 / 5)) : ℤ) : ℚ)
    else (60 : ℚ)) := by
    split_ifs
    · exact le_min (by norm_num) (by linarith)
    · norm_num
    · exact le_min (by norm_num) (by linarith)
    · exact_mod_cast jsRound_nonneg (by nlinarith)
    · norm_num
  exact ⟨(clamp_bounds hc).1, (clamp_bounds hc).2, Rat.den_intCast _⟩

theorem price_conf_ok (claim : ParsedClaim) (resp : PriceHttp)
    (r : VerificationResult) (hval : ∀ q ∈ claim.extractedValue, 0 ≤ q)
    (h : verifyPriceClaim claim resp = Except.ok r) :
    0 ≤ r.confidence ∧ r.confidence ≤ 99 ∧ r.confidence.den = 1 := by
  have hcl : 0 ≤ claim.extractedValue.getD 0 := by
    cases hx : claim.extractedValue with
    | none => simp
    | some q => simpa using hval q (by simp [hx])
  unfold verifyPriceClaim at h
  repeat' split at h
  all_goals first
    | (simp at h; done)
    | (injection h with h2; subst h2; exact unv_bounds _ _)
    | (injection h with h2; subst h2; dsimp only; exact priceConf_bounds _ _ _ hcl)

theorem weather_conf_ok (claim : ParsedClaim) (key : Option String)
    (resp : WeatherHttp) (r : VerificationResult)
    (h : verifyWeatherClaim claim key resp = Except.ok r) :
    0 ≤ r.confidence ∧ r.confidence ≤ 99 ∧ r.confidence.den = 1 := by
  unfold verifyWeatherClaim at h
  repeat' split at h
  all_goals first
    | (simp at h; done)
    | (injection h with h2; subst h2; exact unv_bounds _ _)
    | (injection h with h2; subst h2; dsimp only;
       split_ifs <;> exact ⟨by norm_num, by norm_num, by simp⟩)

theorem gasVerify_conf_bounds (claimed : ℚ) (gweiRaw : Nat) (hcl : 0 ≤ claimed) :
    0 ≤ (gasVerify claimed gweiRaw).confidence ∧
      (gasVerify claimed gweiRaw).confidence ≤ 99 := by
  unfold gasVerify
  dsimp only
  have hd : 0 ≤ |(gweiRaw : ℚ) / 1000000000 - claimed| / claimed * 100 :=
    mul_nonneg (div_nonneg (abs_nonneg _) hcl) (by norm_num)
  split_ifs
  · exact ⟨le_min (by norm_num) (by linarith), min_le_left _ _⟩
  · norm_num

theorem defiGasAttempt_ok (claim : ParsedClaim) (gasR : Except String Nat)
    (r : VerificationResult) (hval : ∀ q ∈ claim.extractedValue, 0 ≤ q)
    (heq : defiGasAttempt claim gasR = some r) :
    (0 ≤ r.confidence ∧ r.confidence ≤ 99) ∧ r.source = "Ethereum RPC" := by
  unfold defiGasAttempt at heq
  split at heq
  · split at heq
    case h_1 hc o g claimed gweiRaw hev =>
      injection heq with h2
      subst h2
      exact ⟨gasVerify_conf_bounds claimed gweiRaw (hval claimed (by simp [hev])), rfl⟩
    case h_2 => simp at heq
  · simp at heq

theorem defi_conf_ok (claim : ParsedClaim) (gasR : Except String Nat)
    (tvlResp : TvlHttp) (r : VerificationResult)
    (hval : ∀ q ∈ claim.extractedValue, 0 ≤ q)
    (h : verifyDefiClaim claim gasR tvlResp = Except.ok r) :
    0 ≤ r.confidence ∧ r.confidence ≤ 99 ∧
      (r.source ≠ "Ethereum RPC" → r.confidence.den = 1) := by
  unfold verifyDefiClaim at h
  split at h
  case h_1 r' heq =>
    injection h with h2
    subst h2
    obtain ⟨⟨b1, b2⟩, hsrc⟩ := defiGasAttempt_ok claim gasR r' hval heq
    exact ⟨b1, b2, fun hs => absurd hsrc hs⟩
  case h_2 heq =>
    repeat' split at h
    all_goals first
      | (simp at h; done)
      | (injection h with h2; subst h2;
         exact ⟨(unv_bounds _ _).1, (unv_bounds _ _).2.1, fun _ => (unv_bounds _ _).2.2⟩)
      | (injection h with h2; subst h2; dsimp only;
         split_ifs <;> exact ⟨by norm_num, by norm_num, fun _ => by simp⟩)

end AgentVerifier

namespace AgentVerifier

set_option maxRecDepth 4000

/-- C1: for every input tuple, the agent-side `computeVerdictHash`
(ethers `solidityPackedKeccak256`) and the CRE-workflow
`computeVerdictHash` (viem `keccak256 ∘ encodePacked`) produce identical
32-byte digests (and fail on exactly the same out-of-range inputs). -/
theorem agent_cre_hash_equal (postId verdict : String) (confidence : ℚ)
    (timestamp : ℤ) :
    computeVerdictHash postId verdict confidence timestamp =
      CreWorkflow.computeVerdictHash postId verdict confidence timestamp := rfl

/-- C2: the verdict hash is Keccak-256 of the tight concatenation of the
UTF-8 claim id, the UTF-8 verdict label, the confidence as a 32-byte
big-endian unsigned integer after nearest-integer rounding, and the Unix
timestamp as a 32-byte big-endian unsigned integer; in particular the hash
at confidence 87.6 equals the hash at confidence 88. -/
theorem hash_spec_encoding :
    (∀ (claimId verdict : String) (conf : ℚ) (ts : ℤ),
      0 ≤ jsRound conf → jsRound conf < 2 ^ 256 → 0 ≤ ts → ts < 2 ^ 256 →
      computeVerdictHash claimId verdict conf ts =
        some (specVerdictHash claimId verdict conf ts.toNat)) ∧
    (∀ (claimId verdict : String) (ts : ℤ),
      computeVerdictHash claimId verdict (87.6 : ℚ) ts =
        computeVerdictHash claimId verdict 88 ts) := by
  constructor
  · intro claimId verdict conf ts h1 h2 h3 h4
    unfold computeVerdictHash ethersSolidityPacked ethersPackUint256 specVerdictHash
    rw [if_pos ⟨h1, h2⟩, if_pos ⟨h3, h4⟩]
    rfl
  · intro claimId verdict ts
    have h : jsRound (87.6 : ℚ) = jsRound 88 := by norm_num [jsRound]
    unfold computeVerdictHash
    rw [h]

theorem hash_spec_encoding_witness :
    (0 ≤ jsRound (87.6 : ℚ) ∧ jsRound (87.6 : ℚ) < 2 ^ 256 ∧
     0 ≤ (1700000000 : ℤ) ∧ (1700000000 : ℤ) < 2 ^ 256) ∧
    computeVerdictHash "demo-001" "FALSE" 87.6 1700000000 =
      some (specVerdictHash "demo-001" "FALSE" 87.6 (1700000000 : ℤ).toNat) :=
  ⟨⟨by norm_num [jsRound], by norm_num [jsRound], by norm_num, by norm_num⟩,
    hash_spec_encoding.1 "demo-001" "FALSE" 87.6 1700000000
      (by norm_num [jsRound]) (by norm_num [jsRound]) (by norm_num) (by norm_num)⟩

end AgentVerifier

namespace AgentVerifier

/-- C3: when on-chain proof submission fails, the per-claim step still
persists a record whose transaction id and verdict hash are the zero value,
with verdict and confidence identical to the non-failing case's record;
notification is still attempted, the claim is marked processed, and the
failure is not logged as a cycle-aborting error. -/
theorem proof_failure_is_nonblocking (st : AgentState) (claim : ParsedClaim)
    (nowIso : String) (result : VerificationResult) (perr : String)
    (proof : OnChainProof) (notifyR : Except String (Option String))
    (h : isAlreadyVerified st.verified claim.postId = false) :
    ∃ sv,
      (stepClaim st claim nowIso (Except.ok result) (Except.error perr) notifyR).2.saved =
        some sv ∧
      sv.txHash = zeroHash ∧ sv.verdictHash = zeroHash ∧
      sv.verdict = result.verdict ∧ sv.confidence = result.confidence ∧
      (∃ sv', (stepClaim st claim nowIso (Except.ok result) (Except.ok proof) notifyR).2.saved =
          some sv' ∧ sv'.verdict = sv.verdict ∧ sv'.confidence = sv.confidence) ∧
      (stepClaim st claim nowIso (Except.ok result) (Except.error perr) notifyR).2.notifyAttempted =
        true ∧
      (stepClaim st claim nowIso (Except.ok result) (Except.error perr) notifyR).2.errorLogged =
        false ∧
      isAlreadyVerified
        (stepClaim st claim nowIso (Except.ok result) (Except.error perr) notifyR).1.verified
        claim.postId = true ∧
      (stepClaim st claim nowIso (Except.ok result) (Except.error perr) notifyR).1.verdicts =
        (sv :: st.verdicts).take 100 := by
  have h' : claim.postId ∉ st.verified := by simpa [isAlreadyVerified] using h
  cases notifyR with
  | ok id =>
    refine ⟨mkStoredVerdict claim result zeroHash zeroHash id nowIso, ?_⟩
    simp [stepClaim, h', mkStoredVerdict, isAlreadyVerified, mem_markAsVerified]
  | error e =>
    refine ⟨mkStoredVerdict claim result zeroHash zeroHash none nowIso, ?_⟩
    simp [stepClaim, h', mkStoredVerdict, isAlreadyVerified, mem_markAsVerified]

theorem proof_failure_is_nonblocking_witness :
    isAlreadyVerified st0.verified demoClaim1.postId = false ∧
    (∃ sv,
      (stepClaim st0 demoClaim1 "t0" (Except.ok demoResult) (Except.error "no gas")
          (Except.ok (some "c1"))).2.saved = some sv ∧
      sv.txHash = zeroHash ∧ sv.verdictHash = zeroHash ∧
      sv.verdict = demoResult.verdict ∧ sv.confidence = demoResult.confidence ∧
      (∃ sv', (stepClaim st0 demoClaim1 "t0" (Except.ok demoResult) (Except.ok demoProof)
          (Except.ok (some "c1"))).2.saved = some sv' ∧
          sv'.verdict = sv.verdict ∧ sv'.confidence = sv.confidence) ∧
      (stepClaim st0 demoClaim1 "t0" (Except.ok demoResult) (Except.error "no gas")
          (Except.ok (some "c1"))).2.notifyAttempted = true ∧
      (stepClaim st0 demoClaim1 "t0" (Except.ok demoResult) (Except.error "no gas")
          (Except.ok (some "c1"))).2.errorLogged = false ∧
      isAlreadyVerified
        (stepClaim st0 demoClaim1 "t0" (Except.ok demoResult) (Except.error "no gas")
          (Except.ok (some "c1"))).1.verified demoClaim1.postId = true ∧
      (stepClaim st0 demoClaim1 "t0" (Except.ok demoResult) (Except.error "no gas")
          (Except.ok (some "c1"))).1.verdicts = (sv :: st0.verdicts).take 100) :=
  ⟨rfl, proof_failure_is_nonblocking st0 demoClaim1 "t0" demoResult "no gas" demoProof
    (Except.ok (some "c1")) rfl⟩

/-- C4: a claim whose id is already in the processed set is skipped entirely
(no verification, proof, notification or record — the state is unchanged and
the trace is the skip trace); and running the step twice on a fresh claim id
leaves the second run a no-op, with exactly one record carrying that id. -/
theorem pipeline_idempotent :
    (∀ (st : AgentState) (claim : ParsedClaim) (nowIso : String)
       (v : Except String VerificationResult) (p : Except String OnChainProof)
       (n : Except String (Option String)),
       isAlreadyVerified st.verified claim.postId = true →
       stepClaim st claim nowIso v p n = (st, skipTrace)) ∧
    (∀ (st : AgentState) (claim : ParsedClaim) (nowIso nowIso' : String)
       (result : VerificationResult) (p : Except String OnChainProof)
       (n : Except String (Option String))
       (v' : Except String VerificationResult) (p' : Except String OnChainProof)
       (n' : Except String (Option String)),
       isAlreadyVerified st.verified claim.postId = false →
       (st.verdicts.filter (fun r => r.postId == claim.postId)).length = 0 →
       (stepClaim (stepClaim st claim nowIso (Except.ok result) p n).1 claim nowIso' v' p' n').1 =
         (stepClaim st claim nowIso (Except.ok result) p n).1 ∧
       ((stepClaim st claim nowIso (Except.ok result) p n).1.verdicts.filter
         (fun r => r.postId == claim.postId)).length = 1) := by
  constructor
  · intro st claim nowIso v p n h
    simp [stepClaim, h]
  · intro st claim nowIso nowIso' result p n v' p' n' h1 h2
    have hstep : (stepClaim st claim nowIso (Except.ok result) p n).1 =
        { verified := markAsVerified st.verified claim.postId,
          verdicts := (mkStoredVerdict claim result
            (match p with | .ok proof => proof.txHash | .error _ => zeroHash)
            (match p with | .ok proof => proof.verdictHash | .error _ => zeroHash)
            (match n with | .ok id => id | .error _ => none) nowIso :: st.verdicts).take 100 } := by
      cases p <;> cases n <;> simp [stepClaim, h1]
    constructor
    · rw [hstep]
      simp [stepClaim, isAlreadyVerified, mem_markAsVerified]
    · rw [hstep]
      have hnone : ∀ r ∈ st.verdicts.take 99, (r.postId == claim.postId) = false := by
        intro r hr
        have hmem : r ∈ st.verdicts := List.take_subset 99 st.verdicts hr
        have := List.filter_eq_nil_iff.mp (List.length_eq_zero.mp h2) r hmem
        simpa using this
      simp only [List.take_succ_cons, List.filter_cons, mkStoredVerdict, beq_self_eq_true,
        if_true]
      rw [List.filter_eq_nil_iff.mpr (by intro r hr; simpa using hnone r hr)]
      simp

theorem pipeline_idempotent_witness :
    (isAlreadyVerified (AgentState.mk ["demo-001"] []).verified demoClaim1.postId = true ∧
     stepClaim (AgentState.mk ["demo-001"] []) demoClaim1 "t0" (Except.ok demoResult)
       (Except.ok demoProof) (Except.ok none) = (AgentState.mk ["demo-001"] [], skipTrace)) ∧
    (isAlreadyVerified st0.verified demoClaim1.postId = false ∧
     (st0.verdicts.filter (fun r => r.postId == demoClaim1.postId)).length = 0 ∧
     ((stepClaim (stepClaim st0 demoClaim1 "t0" (Except.ok demoResult) (Except.ok demoProof)
         (Except.ok none)).1 demoClaim1 "t1" (Except.ok demoResult) (Except.ok demoProof)
         (Except.ok none)).1 =
       (stepClaim st0 demoClaim1 "t0" (Except.ok demoResult) (Except.ok demoProof)
         (Except.ok none)).1 ∧
      ((stepClaim st0 demoClaim1 "t0" (Except.ok demoResult) (Except.ok demoProof)
         (Except.ok none)).1.verdicts.filter
        (fun r => r.postId == demoClaim1.postId)).length = 1)) :=
  ⟨⟨by decide, pipeline_idempotent.1 (AgentState.mk ["demo-001"] []) demoClaim1 "t0"
      (Except.ok demoResult) (Except.ok demoProof) (Except.ok none) (by decide)⟩,
   ⟨rfl, rfl, pipeline_idempotent.2 st0 demoClaim1 "t0" "t1" demoResult
      (Except.ok demoProof) (Except.ok none) (Except.ok demoResult) (Except.ok demoProof)
      (Except.ok none) rfl rfl⟩⟩

end AgentVerifier

namespace AgentVerifier

/-- C5 counterexample: on a non-2xx CoinGecko response the price verifier
does not return an `UNVERIFIABLE` result — it throws, with the status and
body captured in the error message. -/
theorem transport_error_cex :
    verifyPriceClaim demoClaim1 badPriceResp = Except.error "CoinGecko 500: boom" ∧
    (verifyPriceClaim demoClaim1 badPriceResp).isOk = false := by
  constructor
  · with_unfolding_all rfl
  · with_unfolding_all rfl

/-- C5 (amended): a transport error (non-2xx) makes the verifier throw an
error capturing the status and body; the per-claim `try/catch` of `runCycle`
catches it, leaving the state unchanged and the cycle alive for the
remaining claims (no record, claim not marked processed). -/
theorem transport_error_throws :
    (∀ (claim : ParsedClaim) (resp : PriceHttp) (a : String),
       claim.asset = some a → a ≠ "" → (ASSET_IDS.lookup a).isSome = true →
       claim.extractedValue.isSome = true → resp.ok = false →
       verifyPriceClaim claim resp =
         Except.error ("CoinGecko " ++ toString resp.status ++ ": " ++ resp.errText)) ∧
    (∀ (claim : ParsedClaim) (key : String) (resp : WeatherHttp),
       key ≠ "" → resp.ok = false →
       verifyWeatherClaim claim (some key) resp =
         Except.error ("OpenWeatherMap " ++ toString resp.status ++ ": " ++ resp.errText)) ∧
    (∀ (st : AgentState) (claim : ParsedClaim) (nowIso e : String)
       (p : Except String OnChainProof) (n : Except String (Option String)),
       isAlreadyVerified st.verified claim.postId = false →
       stepClaim st claim nowIso (Except.error e) p n = (st, verifyErrTrace)) := by
  refine ⟨?_, ?_, ?_⟩
  · intro claim resp a ha hne hlook hval hok
    obtain ⟨cid, hcid⟩ := Option.isSome_iff_exists.mp hlook
    obtain ⟨v, hv⟩ := Option.isSome_iff_exists.mp hval
    unfold verifyPriceClaim
    rw [ha, hv]
    rw [if_neg (by simp [hne])]
    simp only [Option.getD_some]
    rw [hcid]
    simp [hok]
  · intro claim key resp hne hok
    unfold verifyWeatherClaim
    rw [if_neg (by simp [hne])]
    rw [if_pos (by simp [hok])]
  · intro st claim nowIso e p n h
    simp [stepClaim, h]

theorem transport_error_throws_witness :
    (demoClaim1.asset = some "ETH" ∧ "ETH" ≠ "" ∧
     (ASSET_IDS.lookup "ETH").isSome = true ∧ demoClaim1.extractedValue.isSome = true ∧
     badPriceResp.ok = false ∧
     verifyPriceClaim demoClaim1 badPriceResp =
       Except.error ("CoinGecko " ++ toString badPriceResp.status ++ ": " ++
         badPriceResp.errText)) ∧
    ("owm-key" ≠ "" ∧ badWeatherResp.ok = false ∧
     verifyWeatherClaim demoClaim1 (some "owm-key") badWeatherResp =
       Except.error ("OpenWeatherMap " ++ toString badWeatherResp.status ++ ": " ++
         badWeatherResp.errText)) ∧
    (isAlreadyVerified st0.verified demoClaim1.postId = false ∧
     stepClaim st0 demoClaim1 "t0" (Except.error "CoinGecko 500: boom")
       (Except.ok demoProof) (Except.ok none) = (st0, verifyErrTrace)) :=
  ⟨⟨rfl, by decide, by decide, by decide, rfl,
    transport_error_throws.1 demoClaim1 badPriceResp "ETH" rfl (by decide) (by decide)
      (by decide) rfl⟩,
   ⟨by decide, rfl,
    transport_error_throws.2.1 demoClaim1 "owm-key" badWeatherResp (by decide) rfl⟩,
   ⟨rfl,
    transport_error_throws.2.2 st0 demoClaim1 "t0" "CoinGecko 500: boom"
      (Except.ok demoProof) (Except.ok none) rfl⟩⟩

end AgentVerifier

namespace AgentVerifier

/-- C6 counterexample: the gas branch of `verifyDefiClaim` applies no
rounding — a gas claim of 50 gwei against an observed 62 gwei yields
confidence `85 + 24/5 = 89.8`, which is not an integer. -/
theorem confidence_not_integer_cex :
    exConf (verifyClaim gasClaim gasEnv) = some (449 / 5) ∧
    ((449 : ℚ) / 5).den = 5 := by
  constructor
  · with_unfolding_all rfl
  · with_unfolding_all rfl

/-- C6 (amended): every verification result has `0 ≤ confidence ≤ 99` (in
particular never 100), provided the parser-produced threshold is
nonnegative; the confidence is an integer on every path except the gas
branch (`source = "Ethereum RPC"`), which can return a fractional value. -/
theorem confidence_bounds (claim : ParsedClaim) (env : OracleEnv)
    (r : VerificationResult)
    (hval : ∀ q ∈ claim.extractedValue, 0 ≤ q)
    (h : verifyClaim claim env = Except.ok r) :
    0 ≤ r.confidence ∧ r.confidence ≤ 99 ∧
      (r.source ≠ "Ethereum RPC" → r.confidence.den = 1) := by
  unfold verifyClaim at h
  split at h
  · obtain ⟨b1, b2, b3⟩ := price_conf_ok claim env.priceResp r hval h
    exact ⟨b1, b2, fun _ => b3⟩
  · obtain ⟨b1, b2, b3⟩ := weather_conf_ok claim env.openweatherKey env.weatherResp r h
    exact ⟨b1, b2, fun _ => b3⟩
  · exact defi_conf_ok claim env.gasR env.tvlResp r hval h
  · injection h with h2
    subst h2
    exact ⟨(unv_bounds _ _).1, (unv_bounds _ _).2.1, fun _ => (unv_bounds _ _).2.2⟩

theorem confidence_bounds_witness :
    verifyClaim gasClaim gasEnv = Except.ok gasResult ∧
    (0 ≤ gasResult.confidence ∧ gasResult.confidence ≤ 99 ∧
      (gasResult.source ≠ "Ethereum RPC" → gasResult.confidence.den = 1)) :=
  ⟨by with_unfolding_all rfl,
   confidence_bounds gasClaim gasEnv gasResult
     (fun q hq => by
       simp only [gasClaim, Option.mem_def, Option.some.injEq] at hq
       rw [← hq]
       norm_num)
     (by with_unfolding_all rfl)⟩

/-- C7 counterexample: at observed spot price 1857.68 against threshold
3500, `verifyPriceClaim` returns confidence 94, not the 99 the claim
asserts (99 is what the CRE workflow's `evaluateClaim` yields there). -/
theorem price_conf99_cex :
    exConf (verifyPriceClaim demoClaim1 (okPrice (185768 / 100))) = some 94 ∧
    (94 : ℚ) ≠ 99 := by
  constructor
  · with_unfolding_all rfl
  · norm_num

/-- C7 (amended): the spec's exceed-claim vectors against
`verifyPriceClaim` — 5000 vs 3500 is TRUE at confidence 94 (≥ 90), 2000 vs
3500 is FALSE at 94 (≥ 85), 3400 vs 3500 is UNVERIFIABLE, and 1857.68 vs
3500 is FALSE at confidence 94 (not 99); the CRE workflow's `evaluateClaim`
gives FALSE at confidence 99 on that last vector. -/
theorem price_vectors :
    (exVerdict (verifyPriceClaim demoClaim1 (okPrice 5000)) = some "TRUE" ∧
     exConf (verifyPriceClaim demoClaim1 (okPrice 5000)) = some 94 ∧ (90 : ℚ) ≤ 94) ∧
    (exVerdict (verifyPriceClaim demoClaim1 (okPrice 2000)) = some "FALSE" ∧
     exConf (verifyPriceClaim demoClaim1 (okPrice 2000)) = some 94 ∧ (85 : ℚ) ≤ 94) ∧
    (exVerdict (verifyPriceClaim demoClaim1 (okPrice 3400)) = some "UNVERIFIABLE") ∧
    (exVerdict (verifyPriceClaim demoClaim1 (okPrice (185768 / 100))) = some "FALSE" ∧
     exConf (verifyPriceClaim demoClaim1 (okPrice (185768 / 100))) = some 94) ∧
    evaluateClaim (185768 / 100) 3500 =
      { verdict := "FALSE", confidence := 99, ethPrice := 185768 / 100 } := by
  refine ⟨⟨?_, ?_, by norm_num⟩, ⟨?_, ?_, by norm_num⟩, ?_, ⟨?_, ?_⟩, ?_⟩ <;>
    with_unfolding_all rfl

end AgentVerifier

namespace AgentVerifier

/-- C8: the comment rate limiter prunes entries older than 3,600,000 ms
from the front of the window on each check and permits at most 50 per
trailing hour: with 50 in-window timestamps the next check returns false,
and once the oldest entry has aged past the window it returns true again. -/
theorem rate_window :
    (∀ (now : ℤ) (ts : List ℤ), ts.length = 50 →
       (∀ t ∈ ts, now - t ≤ 3600000) → (canPostComment now ts).1 = false) ∧
    (∀ (now t : ℤ) (rest : List ℤ), (t :: rest).length = 50 →
       3600000 < now - t → (canPostComment now (t :: rest)).1 = true) := by
  constructor
  · intro now ts h50 hin
    cases ts with
    | nil => simp at h50
    | cons t rest =>
      have hc : ¬ (3600000 < now - t) := not_lt.mpr (hin t (by simp))
      have hr : rest.length = 49 := by simpa using h50
      simp only [canPostComment, List.dropWhile_cons]
      rw [if_neg (by simpa using hc)]
      simp [hr]
  · intro now t rest h50 hexp
    have hr : rest.length = 49 := by simpa using h50
    have hlen : (rest.dropWhile (fun x => decide (3600000 < now - x))).length ≤ rest.length :=
      (List.dropWhile_sublist _).length_le
    simp only [canPostComment, List.dropWhile_cons]
    rw [if_pos (by simpa using hexp)]
    simp
    omega

theorem rate_window_witness :
    ((List.replicate 50 (0 : ℤ)).length = 50 ∧
     (∀ t ∈ List.replicate 50 (0 : ℤ), (1000 : ℤ) - t ≤ 3600000) ∧
     (canPostComment 1000 (List.replicate 50 (0 : ℤ))).1 = false) ∧
    (((0 : ℤ) :: List.replicate 49 (1000000 : ℤ)).length = 50 ∧
     (3600000 : ℤ) < 4000000 - 0 ∧
     (canPostComment 4000000 ((0 : ℤ) :: List.replicate 49 (1000000 : ℤ))).1 = true) :=
  ⟨⟨by decide, by decide,
    rate_window.1 1000 (List.replicate 50 (0 : ℤ)) (by decide) (by decide)⟩,
   ⟨by decide, by decide,
    rate_window.2 4000000 0 (List.replicate 49 (1000000 : ℤ)) (by decide) (by decide)⟩⟩

/-- C9: evaluating `parsePriceClaim` at the failing input — the regex's
`[kKmM]?` consumes the suffix, so the multiplier looks one character past
the match and `"BTC above $50k"` parses to 50, not the 50,000 the claim and
the code's own example comment intend; thousands-separator stripping itself
works (`"$4,200"` parses to 4200). -/
theorem suffix_multiplier_at_50k :
    parsePriceClaim "BTC above $50k" = { value := some 50, asset := some "BTC" } ∧
    (parsePriceClaim "BTC above $50k").value ≠ some 50000 ∧
    parsePriceClaim "ETH will exceed $4,200" =
      { value := some 4200, asset := some "ETH" } := by
  have h1 : parsePriceClaim "BTC above $50k" = { value := some 50, asset := some "BTC" } := by
    with_unfolding_all rfl
  refine ⟨h1, ?_, by with_unfolding_all rfl⟩
  rw [h1]
  intro hcon
  simp only [Option.some.injEq] at hcon
  norm_num at hcon

/-- C10: `parseClaim` is total by construction (every input post yields a
`ParsedClaim`, defaulting to `unknown`), and satisfies the invariant
`claimType = unknown ↔ extractedValue = null` on every path. -/
theorem parse_unknown_iff_none (post : MoltbookPost) :
    (parseClaim post).claimType = ClaimType.unknown ↔
      (parseClaim post).extractedValue = none := by
  unfold parseClaim
  dsimp only
  split
  · simp
  · split
    · simp
    · split
      · simp
      · split
        · simp
        · simp

end AgentVerifier
